import Mathlib

/-!
Verification of the FacturaIA fiscal cross-validation and confidence-scoring
engine for Dominican Republic (DGII) invoices.

The Go source is shallowly embedded: `float64` currency arithmetic is modelled
by exact rationals (`ℚ`), `shopspring/decimal` values (exact decimal
arithmetic) also by `ℚ`, strings by `String`, and the wall clock
(`time.Now()`) by an explicit `now : ℚ` parameter in a timestamp encoding that
order-embeds calendar dates (`y*10000 + m*100 + d`).  Fixed regular
expressions are translated to decidable predicates on the character list.
-/

namespace FacturaIA

/-- Go `math.Round`: nearest integer, halves rounded away from zero. -/
def goRound (q : ℚ) : ℚ :=
  if 0 ≤ q then ((⌊q + 1/2⌋ : ℤ) : ℚ) else -((⌊-q + 1/2⌋ : ℤ) : ℚ)

/-- `round2` from the validator source: `math.Round(f*100) / 100`. -/
def round2 (f : ℚ) : ℚ := goRound (f * 100) / 100

/-- A value is a quantity rounded to 2 decimal places: an integer number of
hundredths. -/
def isRounded2 (x : ℚ) : Prop := ∃ n : ℤ, x = (n : ℚ) / 100

/-- `ValidationError` struct of the validator source.  Absent `expected` /
`actual` fields keep the Go zero value `0`. -/
structure ValidationError where
  field : String
  code : String
  expected : ℚ := 0
  actual : ℚ := 0
  message : String := ""
deriving DecidableEq

/-- `ValidationWarning` struct of the validator source. -/
structure ValidationWarning where
  field : String
  code : String
  message : String := ""
deriving DecidableEq

/-- `ComputedValues` struct of the validator source. -/
structure ComputedValues where
  baseGravada : ℚ
  itbisEsperado : ℚ
  totalEsperado : ℚ
  montoFacturado : ℚ
deriving DecidableEq

/-- `ValidationResult` struct of the validator source. -/
structure ValidationResult where
  valid : Bool
  needsReview : Bool
  errors : List ValidationError
  warnings : List ValidationWarning
  computed : ComputedValues
deriving DecidableEq

/-- `InvoiceInput` struct of the validator source; every Go field keeps its
zero value as default. -/
structure InvoiceInput where
  montoServicios : ℚ := 0
  montoBienes : ℚ := 0
  descuento : ℚ := 0
  itbisFacturado : ℚ := 0
  itbisTasa : ℚ := 0
  itbisExento : ℚ := 0
  itbisRetenido : ℚ := 0
  itbisProporcionalidad : ℚ := 0
  itbisCosto : ℚ := 0
  iscMonto : ℚ := 0
  iscCategoria : String := ""
  cdtMonto : ℚ := 0
  cargo911 : ℚ := 0
  propinaLegal : ℚ := 0
  otrosImpuestos : ℚ := 0
  montoNoFacturable : ℚ := 0
  retencionISRTipo : ℤ := 0
  retencionISRMonto : ℚ := 0
  totalFactura : ℚ := 0
  ncf : String := ""
  ncfVencimiento : String := ""
  fechaPago : String := ""
deriving DecidableEq

/-- `TaxValidator` carries the configured percentage tolerance. -/
structure TaxValidator where
  tolerance : ℚ

/-- `NewTaxValidator`: default 5% tolerance. -/
def newTaxValidator : TaxValidator := ⟨5/100⟩

/-- `baseGravada` before clamping:
`montoServicios + montoBienes - descuento - itbisExento`. -/
def baseGravadaRawOf (i : InvoiceInput) : ℚ :=
  i.montoServicios + i.montoBienes - i.descuento - i.itbisExento

/-- `baseGravada` as computed in `Validate` (clamped to 0). -/
def baseGravadaOf (i : InvoiceInput) : ℚ :=
  if baseGravadaRawOf i < 0 then 0 else baseGravadaRawOf i

/-- `montoFacturado` as computed in `Validate` (no clamping in the source). -/
def montoFacturadoOf (i : InvoiceInput) : ℚ :=
  i.montoServicios + i.montoBienes - i.descuento

/-- Effective ITBIS rate: 0.16 when `itbisTasa == 16`, else 0.18. -/
def itbisTasaOf (i : InvoiceInput) : ℚ :=
  if i.itbisTasa = 16 then 16/100 else 18/100

/-- `itbisEsperado = baseGravada * itbisTasa`. -/
def itbisEsperadoOf (i : InvoiceInput) : ℚ := baseGravadaOf i * itbisTasaOf i

/-- `totalEsperado`: sum of invoiced amount and all charge components. -/
def totalEsperadoOf (i : InvoiceInput) : ℚ :=
  montoFacturadoOf i + i.itbisFacturado + i.iscMonto + i.cdtMonto +
    i.cargo911 + i.propinaLegal + i.otrosImpuestos

/-- `validateITBIS`: skipped when `baseGravada <= 0`; otherwise an
`itbis_mismatch` error when the deviation exceeds `baseGravada * tolerance`. -/
def validateITBIS (v : TaxValidator) (input : InvoiceInput)
    (baseGravada itbisEsperado : ℚ) : List ValidationError :=
  if baseGravada ≤ 0 then []
  else if |input.itbisFacturado - itbisEsperado| > baseGravada * v.tolerance then
    [{ field := "itbis_facturado", code := "itbis_mismatch",
       expected := round2 itbisEsperado, actual := round2 input.itbisFacturado,
       message := "ITBIS no coincide con 18% de base gravada" }]
  else []

/-- `validateTotal`: skipped when `totalFactura <= 0`; otherwise a
`total_mismatch` error when the deviation exceeds `totalFactura * tolerance`. -/
def validateTotal (v : TaxValidator) (input : InvoiceInput)
    (totalEsperado : ℚ) : List ValidationError :=
  if input.totalFactura ≤ 0 then []
  else if |input.totalFactura - totalEsperado| > input.totalFactura * v.tolerance then
    [{ field := "total_factura", code := "total_mismatch",
       expected := round2 totalEsperado, actual := round2 input.totalFactura,
       message := "Total no coincide con suma de componentes" }]
  else []

/-- `validatePropina`: warning when the tip deviates from 10% of
`montoFacturado` by more than 10% of the expected tip. -/
def validatePropina (input : InvoiceInput) (montoFacturado : ℚ) :
    List ValidationWarning :=
  if input.propinaLegal ≤ 0 ∨ montoFacturado ≤ 0 then []
  else if |input.propinaLegal - montoFacturado * (10/100)| >
      montoFacturado * (10/100) * (10/100) then
    [{ field := "propina_legal", code := "propina_mismatch",
       message := "Propina no coincide con 10% del monto facturado" }]
  else []

/-- `validateTelecom`: for `iscCategoria == "telecom"`, ISC should be 10% and
CDT 2% of the taxed base, each within the configured tolerance. -/
def validateTelecom (v : TaxValidator) (input : InvoiceInput)
    (baseGravada : ℚ) : List ValidationWarning :=
  if input.iscCategoria ≠ "telecom" ∨ baseGravada ≤ 0 then []
  else
    (if |input.iscMonto - baseGravada * (10/100)| >
        baseGravada * (10/100) * v.tolerance then
      [{ field := "isc_monto", code := "isc_telecom_mismatch",
         message := "ISC telecom debería ser 10% de base gravada" }]
    else []) ++
    (if |input.cdtMonto - baseGravada * (2/100)| >
        baseGravada * (2/100) * v.tolerance then
      [{ field := "cdt_monto", code := "cdt_mismatch",
         message := "CDT debería ser 2% de base gravada" }]
    else [])

/-- ASCII digit test (`[0-9]` in the source regexes). -/
def isDigitCh (c : Char) : Bool := '0' ≤ c && c ≤ '9'

/-- Numeric value of an ASCII digit character. -/
def digitVal (c : Char) : ℕ := c.toNat - 48

/-- Gregorian leap-year rule used by Go `time` date validation. -/
def isLeapYear (y : ℕ) : Bool := (y % 4 == 0 && y % 100 != 0) || y % 400 == 0

/-- Days in a month, as validated by Go `time.Parse`. -/
def daysInMonth (y m : ℕ) : ℕ :=
  if m = 2 then (if isLeapYear y then 29 else 28)
  else if m = 4 ∨ m = 6 ∨ m = 9 ∨ m = 11 then 30
  else 31

/-- Go `time.Parse("2006-01-02", s)`, reduced to the date information the
validator consumes: `some (y*10000 + m*100 + d)` for a well-formed
`YYYY-MM-DD` calendar date, `none` when parsing fails.  The encoding
order-embeds calendar dates. -/
def dateCode (s : String) : Option ℕ :=
  match s.data with
  | [y1, y2, y3, y4, h1, m1, m2, h2, d1, d2] =>
    if h1 == '-' && h2 == '-' && isDigitCh y1 && isDigitCh y2 && isDigitCh y3 &&
        isDigitCh y4 && isDigitCh m1 && isDigitCh m2 && isDigitCh d1 &&
        isDigitCh d2 then
      let y := digitVal y1 * 1000 + digitVal y2 * 100 + digitVal y3 * 10 + digitVal y4
      let m := digitVal m1 * 10 + digitVal m2
      let d := digitVal d1 * 10 + digitVal d2
      if 1 ≤ m ∧ m ≤ 12 ∧ 1 ≤ d ∧ d ≤ daysInMonth y m then
        some (y * 10000 + m * 100 + d)
      else none
    else none
  | _ => none

/-- A parsed expiry date as a timestamp in the same encoding as `now`. -/
def parseDate (s : String) : Option ℚ := (dateCode s).map (fun n => (n : ℚ))

/-- The NCF format regex of the validator source: `^[BE][0-9]{10,12}$`. -/
def ncfFormatOK (s : String) : Bool :=
  match s.data with
  | c :: rest =>
    (c == 'B' || c == 'E') && rest.all isDigitCh &&
      decide (10 ≤ rest.length) && decide (rest.length ≤ 12)
  | [] => false

/-- The fixed NCF type table of the validator source (keys only: the lookup
uses only key membership). -/
def validTypes : List String :=
  ["B01", "B02", "B04", "B14", "B15", "B16",
   "E31", "E32", "E33", "E34", "E41", "E43", "E44", "E45"]

/-- `validateNCF`: skipped for an empty NCF; a format failure yields
`ncf_invalid_format` and returns early; otherwise an unknown 3-character type
prefix yields a `ncf_unknown_type` warning, and a parseable expiry date
strictly before `now` yields `ncf_expired`. -/
def validateNCF (input : InvoiceInput) (now : ℚ) :
    List ValidationError × List ValidationWarning :=
  if input.ncf = "" then ([], [])
  else if !(ncfFormatOK input.ncf) then
    ([{ field := "ncf", code := "ncf_invalid_format",
        message := "NCF debe comenzar con B o E seguido de 10-12 dígitos" }], [])
  else
    ((if input.ncfVencimiento = "" then []
      else
        match parseDate input.ncfVencimiento with
        | some vencimiento =>
          if now > vencimiento then
            [{ field := "ncf_vencimiento", code := "ncf_expired",
               message := "NCF vencido" : ValidationError }]
          else []
        | none => []),
     (if validTypes.contains (input.ncf.take 3) then []
      else [{ field := "ncf", code := "ncf_unknown_type",
              message := "Tipo de NCF no reconocido: " ++ input.ncf.take 3 :
                ValidationWarning }]))

/-- The ISR retention rate table (DGII) of the validator source. -/
def isrRates (tipo : ℤ) : Option ℚ :=
  if tipo = 1 ∨ tipo = 2 ∨ tipo = 3 ∨ tipo = 4 ∨ tipo = 5 then some (10/100)
  else if tipo = 6 then some (25/100)
  else if tipo = 7 then some (27/100)
  else if tipo = 8 then some (10/100)
  else none

/-- `validateISRRate`: warns when the ISR retention deviates from the rate for
its type by more than the tolerance (only for a positive expected amount). -/
def validateISRRate (v : TaxValidator) (input : InvoiceInput) :
    List ValidationWarning :=
  match isrRates input.retencionISRTipo with
  | none => []
  | some expectedRate =>
    let baseISR := input.montoServicios + input.montoBienes - input.descuento
    if baseISR ≤ 0 then []
    else
      let expectedISR := baseISR * expectedRate
      if |input.retencionISRMonto - expectedISR| > expectedISR * v.tolerance ∧
          expectedISR > 0 then
        [{ field := "retencion_isr_monto", code := "isr_rate_mismatch",
           message := "Retención ISR no coincide con tasa esperada para tipo " ++
             String.singleton (Char.ofNat (48 + input.retencionISRTipo.toNat)) }]
      else []

/-- `validateRetenciones`: retentions require a payment date; an ISR retention
additionally requires a type in `[1,8]`, and an in-range type is checked
against the rate table. -/
def retencionPaymentErrors (input : InvoiceInput) : List ValidationError :=
  if (input.itbisRetenido > 0 ∨ input.retencionISRMonto > 0) ∧
      input.fechaPago = "" then
    [{ field := "fecha_pago", code := "missing_payment_date",
       message := "Fecha de pago requerida cuando hay retenciones" }]
  else []

def validateRetenciones (v : TaxValidator) (input : InvoiceInput) :
    List ValidationError × List ValidationWarning :=
  if input.retencionISRMonto > 0 then
    if input.retencionISRTipo < 1 ∨ input.retencionISRTipo > 8 then
      (retencionPaymentErrors input ++
        [{ field := "retencion_isr_tipo", code := "missing_retencion_tipo",
           message := "Tipo de retención ISR requerido (1-8)" }], [])
    else (retencionPaymentErrors input, validateISRRate v input)
  else (retencionPaymentErrors input, [])

/-- `validateCoherence`: at least one of the goods/services amounts must be
present; an exempt amount exceeding the base and an oversized discount are
warnings. -/
def validateCoherence (input : InvoiceInput) :
    List ValidationError × List ValidationWarning :=
  ((if input.montoServicios = 0 ∧ input.montoBienes = 0 then
      [{ field := "monto_servicios", code := "no_amounts",
         message := "Debe existir monto de servicios o bienes" : ValidationError }]
    else []),
   (if input.itbisFacturado > 0 ∧ input.itbisExento > 0 then
      if input.montoServicios + input.montoBienes - input.descuento -
          input.itbisExento < 0 then
        [{ field := "itbis_exento", code := "itbis_exento_exceeds_base",
           message := "ITBIS exento excede la base imponible" : ValidationWarning }]
      else []
    else []) ++
   (if input.descuento > input.montoServicios + input.montoBienes then
      [{ field := "descuento", code := "descuento_exceeds_subtotal",
         message := "Descuento excede el subtotal" : ValidationWarning }]
    else []))

/-- `TaxValidator.Validate`: computes the reference values, runs the seven
checks in source order accumulating errors and warnings, and derives the
`valid` / `needsReview` flags from the final lists.  `now` makes the source's
`time.Now()` read explicit. -/
def TaxValidator.Validate (v : TaxValidator) (input : InvoiceInput) (now : ℚ) :
    ValidationResult :=
  let errors :=
    validateITBIS v input (baseGravadaOf input) (itbisEsperadoOf input) ++
    validateTotal v input (totalEsperadoOf input) ++
    (validateNCF input now).1 ++
    (validateRetenciones v input).1 ++
    (validateCoherence input).1
  let warnings :=
    validatePropina input (montoFacturadoOf input) ++
    validateTelecom v input (baseGravadaOf input) ++
    (validateNCF input now).2 ++
    (validateRetenciones v input).2 ++
    (validateCoherence input).2
  { valid := decide (errors.length = 0),
    needsReview := decide (0 < warnings.length),
    errors := errors,
    warnings := warnings,
    computed :=
      { baseGravada := round2 (baseGravadaOf input),
        itbisEsperado := round2 (itbisEsperadoOf input),
        totalEsperado := round2 (totalEsperadoOf input),
        montoFacturado := round2 (montoFacturadoOf input) } }

/-- The fields of `models.Invoice` consumed by `calculateConfidence`.
`decimal.Decimal` amounts are exact decimals, modelled by `ℚ`;
`FechaFactura.IsZero()` corresponds to `fechaFactura = 0`. -/
structure Invoice where
  ncf : String := ""
  rncEmisor : String := ""
  total : ℚ := 0
  subtotal : ℚ := 0
  itbis : ℚ := 0
  fechaFactura : ℚ := 0
  tipoNCF : String := ""
  nombreEmisor : String := ""
deriving DecidableEq

/-- The three-character prefix alternation of the scorer's `ncfRegex`:
`B0[124]|B1[456]|E3[1-9]|E4[0-5]`. -/
def ncfPrefix3OK (c1 c2 c3 : Char) : Bool :=
  (c1 == 'B' && c2 == '0' && (c3 == '1' || c3 == '2' || c3 == '4')) ||
  (c1 == 'B' && c2 == '1' && (c3 == '4' || c3 == '5' || c3 == '6')) ||
  (c1 == 'E' && c2 == '3' && ('1' ≤ c3 && c3 ≤ '9')) ||
  (c1 == 'E' && c2 == '4' && ('0' ≤ c3 && c3 ≤ '5'))

/-- The scorer's `ncfRegex`:
`^(B0[124]|B1[456]|E3[1-9]|E4[0-5])\d{8,13}$`. -/
def ncfRegexAccept (s : String) : Bool :=
  match s.data with
  | c1 :: c2 :: c3 :: rest =>
    ncfPrefix3OK c1 c2 c3 && rest.all isDigitCh &&
      decide (8 ≤ rest.length) && decide (rest.length ≤ 13)
  | _ => false

/-- Critical (0.15 each) and important (0.05 each) criteria of
`calculateConfidence`, summed in source order. -/
def scoreBase (inv : Invoice) : ℚ :=
  (if inv.ncf ≠ "" then 15/100 else 0) +
  (if inv.rncEmisor ≠ "" then 15/100 else 0) +
  (if inv.total > 0 then 15/100 else 0) +
  (if ¬ inv.itbis < 0 then 15/100 else 0) +
  (if inv.fechaFactura ≠ 0 then 5/100 else 0) +
  (if inv.subtotal > 0 then 5/100 else 0) +
  (if inv.tipoNCF ≠ "" then 5/100 else 0) +
  (if inv.nombreEmisor ≠ "" then 5/100 else 0)

/-- The 0.10 NCF-format bonus term of `calculateConfidence`, gated by
`ncfRegex`. -/
def ncfBonus (inv : Invoice) : ℚ := if ncfRegexAccept inv.ncf then 10/100 else 0

/-- The 0.10 total-consistency bonus term of `calculateConfidence`:
`|total - (subtotal + itbis)| <= total * 0.05`, only when both `total` and
`subtotal` are positive. -/
def totalBonus (inv : Invoice) : ℚ :=
  if inv.total > 0 ∧ inv.subtotal > 0 then
    if |inv.total - (inv.subtotal + inv.itbis)| ≤ inv.total * (5/100) then 10/100
    else 0
  else 0

/-- The uncapped confidence sum. -/
def confidenceSum (inv : Invoice) : ℚ := scoreBase inv + ncfBonus inv + totalBonus inv

/-- `calculateConfidence`: rubric sum capped at 1.0. -/
def calculateConfidence (inv : Invoice) : ℚ :=
  if confidenceSum inv > 1 then 1 else confidenceSum inv

/-- The error codes of a validation result, in order. -/
def errorCodes (r : ValidationResult) : List String :=
  r.errors.map (fun e => e.code)

/-- The warning codes of a validation result, in order. -/
def warningCodes (r : ValidationResult) : List String :=
  r.warnings.map (fun w => w.code)

lemma goRound_nonneg {q : ℚ} (h : 0 ≤ q) : 0 ≤ goRound q := by
  unfold goRound
  rw [if_pos h]
  have h2 : (0:ℤ) ≤ ⌊q + 1/2⌋ := Int.floor_nonneg.mpr (by linarith)
  exact_mod_cast h2

lemma round2_nonneg {q : ℚ} (h : 0 ≤ q) : 0 ≤ round2 q := by
  unfold round2
  exact div_nonneg (goRound_nonneg (by positivity)) (by norm_num)

lemma isRounded2_round2 (q : ℚ) : isRounded2 (round2 q) := by
  unfold round2 goRound isRounded2
  split_ifs with h
  · exact ⟨⌊q * 100 + 1/2⌋, rfl⟩
  · exact ⟨-⌊-(q * 100) + 1/2⌋, by push_cast; ring⟩

lemma goRound_intCast (n : ℤ) : goRound ((n : ℤ) : ℚ) = n := by
  have hhalf : ⌊(1/2 : ℚ)⌋ = 0 := by
    rw [Int.floor_eq_zero_iff]
    constructor <;> norm_num
  unfold goRound
  split_ifs with h
  · rw [add_comm, Int.floor_add_int, hhalf, zero_add]
  · have harg : -((n : ℤ) : ℚ) + 1/2 = 1/2 + ((-n : ℤ) : ℚ) := by
      push_cast
      ring
    rw [harg, Int.floor_add_int, hhalf, zero_add, Int.cast_neg, neg_neg]

lemma round2_hundredths (n : ℤ) : round2 ((n : ℚ) / 100) = (n : ℚ) / 100 := by
  unfold round2
  rw [show ((n : ℚ) / 100) * 100 = ((n : ℤ) : ℚ) by ring, goRound_intCast]

lemma round2_intCast (n : ℤ) : round2 ((n : ℤ) : ℚ) = n := by
  have h : ((n : ℤ) : ℚ) = ((100 * n : ℤ) : ℚ) / 100 := by push_cast; ring
  rw [h, round2_hundredths]

lemma baseGravadaOf_nonneg (i : InvoiceInput) : 0 ≤ baseGravadaOf i := by
  unfold baseGravadaOf
  split_ifs with h
  · exact le_refl 0
  · linarith

lemma itbisEsperadoOf_nonneg (i : InvoiceInput) : 0 ≤ itbisEsperadoOf i := by
  unfold itbisEsperadoOf itbisTasaOf
  have hb := baseGravadaOf_nonneg i
  split_ifs <;> positivity

lemma mem_validateITBIS {v : TaxValidator} {i : InvoiceInput} {b t : ℚ}
    {e : ValidationError} :
    e ∈ validateITBIS v i b t ↔
      0 < b ∧ b * v.tolerance < |i.itbisFacturado - t| ∧
        e = { field := "itbis_facturado", code := "itbis_mismatch",
              expected := round2 t, actual := round2 i.itbisFacturado,
              message := "ITBIS no coincide con 18% de base gravada" } := by
  unfold validateITBIS
  split_ifs with h1 h2
  · simp only [List.not_mem_nil, false_iff]
    rintro ⟨hpos, -, -⟩
    linarith
  · simp only [List.mem_singleton]
    constructor
    · intro he
      exact ⟨lt_of_not_le h1, h2, he⟩
    · rintro ⟨-, -, he⟩
      exact he
  · simp only [List.not_mem_nil, false_iff]
    rintro ⟨-, hgt, -⟩
    exact h2 hgt

lemma mem_validateTotal {v : TaxValidator} {i : InvoiceInput} {t : ℚ}
    {e : ValidationError} :
    e ∈ validateTotal v i t ↔
      0 < i.totalFactura ∧ i.totalFactura * v.tolerance < |i.totalFactura - t| ∧
        e = { field := "total_factura", code := "total_mismatch",
              expected := round2 t, actual := round2 i.totalFactura,
              message := "Total no coincide con suma de componentes" } := by
  unfold validateTotal
  split_ifs with h1 h2
  · simp only [List.not_mem_nil, false_iff]
    rintro ⟨hpos, -, -⟩
    linarith
  · simp only [List.mem_singleton]
    constructor
    · intro he
      exact ⟨lt_of_not_le h1, h2, he⟩
    · rintro ⟨-, -, he⟩
      exact he
  · simp only [List.not_mem_nil, false_iff]
    rintro ⟨-, hgt, -⟩
    exact h2 hgt

lemma validateNCF_fst (i : InvoiceInput) (now : ℚ) :
    (validateNCF i now).1 =
      if i.ncf = "" then []
      else if !(ncfFormatOK i.ncf) then
        [{ field := "ncf", code := "ncf_invalid_format",
           message := "NCF debe comenzar con B o E seguido de 10-12 dígitos" }]
      else if i.ncfVencimiento = "" then []
      else
        match parseDate i.ncfVencimiento with
        | some vencimiento =>
          if now > vencimiento then
            [{ field := "ncf_vencimiento", code := "ncf_expired",
               message := "NCF vencido" }]
          else []
        | none => [] := by
  unfold validateNCF
  split_ifs <;> rfl

lemma validateNCF_snd (i : InvoiceInput) (now : ℚ) :
    (validateNCF i now).2 =
      if i.ncf = "" then []
      else if !(ncfFormatOK i.ncf) then []
      else if validTypes.contains (i.ncf.take 3) then []
      else [{ field := "ncf", code := "ncf_unknown_type",
              message := "Tipo de NCF no reconocido: " ++ i.ncf.take 3 }] := by
  unfold validateNCF
  split_ifs <;> rfl

lemma validateNCF_snd_codes {i : InvoiceInput} {now : ℚ} {w : ValidationWarning}
    (h : w ∈ (validateNCF i now).2) : w.code = "ncf_unknown_type" := by
  rw [validateNCF_snd] at h
  split_ifs at h <;> simp_all

lemma validateRetenciones_fst (v : TaxValidator) (i : InvoiceInput) :
    (validateRetenciones v i).1 =
      retencionPaymentErrors i ++
      (if i.retencionISRMonto > 0 ∧ (i.retencionISRTipo < 1 ∨ i.retencionISRTipo > 8) then
        [{ field := "retencion_isr_tipo", code := "missing_retencion_tipo",
           message := "Tipo de retención ISR requerido (1-8)" }]
      else []) := by
  unfold validateRetenciones
  split_ifs with h1 h2 <;> simp_all

lemma validateRetenciones_snd (v : TaxValidator) (i : InvoiceInput) :
    (validateRetenciones v i).2 =
      if i.retencionISRMonto > 0 ∧ ¬(i.retencionISRTipo < 1 ∨ i.retencionISRTipo > 8) then
        validateISRRate v i
      else [] := by
  unfold validateRetenciones
  split_ifs with h1 h2 <;> simp_all

lemma validateCoherence_fst (i : InvoiceInput) :
    (validateCoherence i).1 =
      if i.montoServicios = 0 ∧ i.montoBienes = 0 then
        [{ field := "monto_servicios", code := "no_amounts",
           message := "Debe existir monto de servicios o bienes" }]
      else [] := rfl

lemma validateCoherence_snd (i : InvoiceInput) :
    (validateCoherence i).2 =
      (if i.itbisFacturado > 0 ∧ i.itbisExento > 0 then
        if i.montoServicios + i.montoBienes - i.descuento - i.itbisExento < 0 then
          [{ field := "itbis_exento", code := "itbis_exento_exceeds_base",
             message := "ITBIS exento excede la base imponible" }]
        else []
      else []) ++
      (if i.descuento > i.montoServicios + i.montoBienes then
        [{ field := "descuento", code := "descuento_exceeds_subtotal",
           message := "Descuento excede el subtotal" }]
      else []) := rfl

lemma validate_errors (v : TaxValidator) (i : InvoiceInput) (now : ℚ) :
    (v.Validate i now).errors =
      validateITBIS v i (baseGravadaOf i) (itbisEsperadoOf i) ++
      validateTotal v i (totalEsperadoOf i) ++
      (validateNCF i now).1 ++
      (validateRetenciones v i).1 ++
      (validateCoherence i).1 := rfl

lemma validate_warnings (v : TaxValidator) (i : InvoiceInput) (now : ℚ) :
    (v.Validate i now).warnings =
      validatePropina i (montoFacturadoOf i) ++
      validateTelecom v i (baseGravadaOf i) ++
      (validateNCF i now).2 ++
      (validateRetenciones v i).2 ++
      (validateCoherence i).2 := rfl

lemma mem_retencionPaymentErrors {i : InvoiceInput} {e : ValidationError} :
    e ∈ retencionPaymentErrors i ↔
      ((0 < i.itbisRetenido ∨ 0 < i.retencionISRMonto) ∧ i.fechaPago = "") ∧
        e = { field := "fecha_pago", code := "missing_payment_date",
              message := "Fecha de pago requerida cuando hay retenciones" } := by
  unfold retencionPaymentErrors
  split_ifs with h <;> simp_all

lemma validateITBIS_code {v : TaxValidator} {i : InvoiceInput} {b t : ℚ}
    {e : ValidationError} (h : e ∈ validateITBIS v i b t) :
    e.code = "itbis_mismatch" := by
  rw [(mem_validateITBIS.mp h).2.2]

lemma validateTotal_code {v : TaxValidator} {i : InvoiceInput} {t : ℚ}
    {e : ValidationError} (h : e ∈ validateTotal v i t) :
    e.code = "total_mismatch" := by
  rw [(mem_validateTotal.mp h).2.2]

lemma validateNCF_fst_codes {i : InvoiceInput} {now : ℚ} {e : ValidationError}
    (h : e ∈ (validateNCF i now).1) :
    e.code = "ncf_invalid_format" ∨ e.code = "ncf_expired" := by
  rw [validateNCF_fst] at h
  split_ifs at h <;> try simp_all
  rcases hp : parseDate i.ncfVencimiento with _ | t <;> rw [hp] at h <;>
    dsimp only at h
  · simp_all
  · split_ifs at h <;> simp_all

lemma validateRetenciones_fst_codes {v : TaxValidator} {i : InvoiceInput}
    {e : ValidationError} (h : e ∈ (validateRetenciones v i).1) :
    e.code = "missing_payment_date" ∨ e.code = "missing_retencion_tipo" := by
  rw [validateRetenciones_fst] at h
  rcases List.mem_append.mp h with h1 | h2
  · exact Or.inl (by rw [(mem_retencionPaymentErrors.mp h1).2])
  · split_ifs at h2 <;> simp_all

lemma validateCoherence_fst_codes {i : InvoiceInput} {e : ValidationError}
    (h : e ∈ (validateCoherence i).1) : e.code = "no_amounts" := by
  rw [validateCoherence_fst] at h
  split_ifs at h <;> simp_all

lemma validatePropina_code {i : InvoiceInput} {m : ℚ} {w : ValidationWarning}
    (h : w ∈ validatePropina i m) : w.code = "propina_mismatch" := by
  unfold validatePropina at h
  split_ifs at h <;> simp_all

lemma validateTelecom_codes {v : TaxValidator} {i : InvoiceInput} {b : ℚ}
    {w : ValidationWarning} (h : w ∈ validateTelecom v i b) :
    w.code = "isc_telecom_mismatch" ∨ w.code = "cdt_mismatch" := by
  unfold validateTelecom at h
  split_ifs at h <;> simp_all
  all_goals (rcases h with h | h <;> simp_all)

lemma validateISRRate_code {v : TaxValidator} {i : InvoiceInput}
    {w : ValidationWarning} (h : w ∈ validateISRRate v i) :
    w.code = "isr_rate_mismatch" := by
  unfold validateISRRate at h
  rcases hr : isrRates i.retencionISRTipo with _ | rate <;> rw [hr] at h <;>
    dsimp only at h
  · simp_all
  · split_ifs at h <;> simp_all

lemma validateRetenciones_snd_codes {v : TaxValidator} {i : InvoiceInput}
    {w : ValidationWarning} (h : w ∈ (validateRetenciones v i).2) :
    w.code = "isr_rate_mismatch" := by
  rw [validateRetenciones_snd] at h
  split_ifs at h
  · exact validateISRRate_code h
  · simp_all

lemma validateCoherence_snd_codes {i : InvoiceInput} {w : ValidationWarning}
    (h : w ∈ (validateCoherence i).2) :
    w.code = "itbis_exento_exceeds_base" ∨ w.code = "descuento_exceeds_subtotal" := by
  rw [validateCoherence_snd] at h
  rcases List.mem_append.mp h with h1 | h2
  · split_ifs at h1 <;> simp_all
  · split_ifs at h2 <;> simp_all

lemma validate_computed (v : TaxValidator) (i : InvoiceInput) (now : ℚ) :
    (v.Validate i now).computed =
      { baseGravada := round2 (baseGravadaOf i),
        itbisEsperado := round2 (itbisEsperadoOf i),
        totalEsperado := round2 (totalEsperadoOf i),
        montoFacturado := round2 (montoFacturadoOf i) } := rfl

lemma validate_valid (v : TaxValidator) (i : InvoiceInput) (now : ℚ) :
    (v.Validate i now).valid = decide ((v.Validate i now).errors.length = 0) := rfl

lemma validate_needsReview (v : TaxValidator) (i : InvoiceInput) (now : ℚ) :
    (v.Validate i now).needsReview =
      decide (0 < (v.Validate i now).warnings.length) := rfl

lemma mem_errorCodes {r : ValidationResult} {c : String} :
    c ∈ errorCodes r ↔ ∃ e ∈ r.errors, e.code = c := by
  simp [errorCodes, List.mem_map]

lemma mem_warningCodes {r : ValidationResult} {c : String} :
    c ∈ warningCodes r ↔ ∃ w ∈ r.warnings, w.code = c := by
  simp [warningCodes, List.mem_map]

/-- C6: for every input, the result of `TaxValidator.Validate` satisfies
`valid = (len errors = 0)` and `needsReview = (len warnings > 0)`; neither
flag can disagree with its list. -/
theorem valid_needsReview_flags (v : TaxValidator) (i : InvoiceInput) (now : ℚ) :
    ((v.Validate i now).valid = true ↔ (v.Validate i now).errors = []) ∧
      ((v.Validate i now).needsReview = true ↔ (v.Validate i now).warnings ≠ []) := by
  rw [validate_valid, validate_needsReview]
  constructor
  · rw [decide_eq_true_iff]
    exact List.length_eq_zero
  · rw [decide_eq_true_iff]
    exact List.length_pos

/-- C9: `missing_payment_date` is reported iff a retention is present
(`itbisRetenido > 0` or `retencionISRMonto > 0`) while `fechaPago` is empty. -/
theorem missing_payment_date_iff (v : TaxValidator) (i : InvoiceInput) (now : ℚ) :
    "missing_payment_date" ∈ errorCodes (v.Validate i now) ↔
      ((0 < i.itbisRetenido ∨ 0 < i.retencionISRMonto) ∧ i.fechaPago = "") := by
  rw [mem_errorCodes, validate_errors]
  simp only [List.mem_append]
  constructor
  · rintro ⟨e, ((((h | h) | h) | h) | h), hc⟩
    · rw [validateITBIS_code h] at hc
      exact absurd hc (by decide)
    · rw [validateTotal_code h] at hc
      exact absurd hc (by decide)
    · rcases validateNCF_fst_codes h with hcc | hcc <;> rw [hcc] at hc <;>
        exact absurd hc (by decide)
    · rw [validateRetenciones_fst] at h
      rcases List.mem_append.mp h with h1 | h1
      · exact (mem_retencionPaymentErrors.mp h1).1
      · split_ifs at h1 <;> simp_all
    · rw [validateCoherence_fst_codes h] at hc
      exact absurd hc (by decide)
  · intro hcond
    refine ⟨{ field := "fecha_pago", code := "missing_payment_date",
              message := "Fecha de pago requerida cuando hay retenciones" },
            Or.inl (Or.inr ?_), rfl⟩
    rw [validateRetenciones_fst]
    exact List.mem_append.mpr (Or.inl (mem_retencionPaymentErrors.mpr ⟨hcond, rfl⟩))

/-- C10: `calculateConfidence` always returns a value in the closed interval
`[0, 1]`: every rubric criterion adds a non-negative amount and the sum is
capped at 1 before being returned. -/
theorem confidence_in_unit_interval (inv : Invoice) :
    0 ≤ calculateConfidence inv ∧ calculateConfidence inv ≤ 1 := by
  have hbase : 0 ≤ scoreBase inv ∧ scoreBase inv ≤ 8/10 := by
    unfold scoreBase
    split_ifs <;> norm_num
  have hncf : 0 ≤ ncfBonus inv ∧ ncfBonus inv ≤ 1/10 := by
    unfold ncfBonus
    split_ifs <;> norm_num
  have htot : 0 ≤ totalBonus inv ∧ totalBonus inv ≤ 1/10 := by
    unfold totalBonus
    split_ifs <;> norm_num
  have hsum0 : 0 ≤ confidenceSum inv := by
    unfold confidenceSum
    linarith [hbase.1, hncf.1, htot.1]
  have hsum1 : confidenceSum inv ≤ 1 := by
    unfold confidenceSum
    linarith [hbase.2, hncf.2, htot.2]
  unfold calculateConfidence
  split_ifs with h
  · norm_num
  · exact ⟨hsum0, hsum1⟩

lemma itbis_mismatch_mem_iff {v : TaxValidator} {i : InvoiceInput} {now : ℚ} :
    "itbis_mismatch" ∈ errorCodes (v.Validate i now) ↔
      (0 < baseGravadaOf i ∧
        baseGravadaOf i * v.tolerance < |i.itbisFacturado - itbisEsperadoOf i|) := by
  rw [mem_errorCodes, validate_errors]
  simp only [List.mem_append]
  constructor
  · rintro ⟨e, ((((h | h) | h) | h) | h), hc⟩
    · exact ⟨(mem_validateITBIS.mp h).1, (mem_validateITBIS.mp h).2.1⟩
    · rw [validateTotal_code h] at hc
      exact absurd hc (by decide)
    · rcases validateNCF_fst_codes h with hcc | hcc <;> rw [hcc] at hc <;>
        exact absurd hc (by decide)
    · rcases validateRetenciones_fst_codes h with hcc | hcc <;> rw [hcc] at hc <;>
        exact absurd hc (by decide)
    · rw [validateCoherence_fst_codes h] at hc
      exact absurd hc (by decide)
  · rintro ⟨hb, hd⟩
    exact ⟨_, Or.inl (Or.inl (Or.inl (Or.inl
      (mem_validateITBIS.mpr ⟨hb, hd, rfl⟩)))), rfl⟩

lemma total_mismatch_mem_iff {v : TaxValidator} {i : InvoiceInput} {now : ℚ} :
    "total_mismatch" ∈ errorCodes (v.Validate i now) ↔
      (0 < i.totalFactura ∧
        i.totalFactura * v.tolerance < |i.totalFactura - totalEsperadoOf i|) := by
  rw [mem_errorCodes, validate_errors]
  simp only [List.mem_append]
  constructor
  · rintro ⟨e, ((((h | h) | h) | h) | h), hc⟩
    · rw [validateITBIS_code h] at hc
      exact absurd hc (by decide)
    · exact ⟨(mem_validateTotal.mp h).1, (mem_validateTotal.mp h).2.1⟩
    · rcases validateNCF_fst_codes h with hcc | hcc <;> rw [hcc] at hc <;>
        exact absurd hc (by decide)
    · rcases validateRetenciones_fst_codes h with hcc | hcc <;> rw [hcc] at hc <;>
        exact absurd hc (by decide)
    · rw [validateCoherence_fst_codes h] at hc
      exact absurd hc (by decide)
  · rintro ⟨hb, hd⟩
    exact ⟨_, Or.inl (Or.inl (Or.inl (Or.inr
      (mem_validateTotal.mpr ⟨hb, hd, rfl⟩)))), rfl⟩

/-- C1 (amended): the computed block is always populated with the four
reference values, each rounded to 2 decimal places; `baseGravada` is clamped
to 0, so it and `itbisEsperado` are never negative.  (`montoFacturado` is not
clamped in the source: see the counterexample.) -/
theorem computed_block_rounded (v : TaxValidator) (i : InvoiceInput) (now : ℚ) :
    (v.Validate i now).computed.baseGravada = round2 (baseGravadaOf i) ∧
    (v.Validate i now).computed.itbisEsperado = round2 (itbisEsperadoOf i) ∧
    (v.Validate i now).computed.totalEsperado = round2 (totalEsperadoOf i) ∧
    (v.Validate i now).computed.montoFacturado = round2 (montoFacturadoOf i) ∧
    0 ≤ (v.Validate i now).computed.baseGravada ∧
    0 ≤ (v.Validate i now).computed.itbisEsperado ∧
    isRounded2 (v.Validate i now).computed.baseGravada ∧
    isRounded2 (v.Validate i now).computed.itbisEsperado ∧
    isRounded2 (v.Validate i now).computed.totalEsperado ∧
    isRounded2 (v.Validate i now).computed.montoFacturado := by
  refine ⟨rfl, rfl, rfl, rfl, ?_, ?_, ?_, ?_, ?_, ?_⟩
  · exact round2_nonneg (baseGravadaOf_nonneg i)
  · exact round2_nonneg (itbisEsperadoOf_nonneg i)
  all_goals exact isRounded2_round2 _

/-- C1 counterexample: with `montoServicios = 5` and `descuento = 10`, the
computed `montoFacturado` is `-5`: it is not clamped to 0 and is negative. -/
theorem computed_montoFacturado_negative_example :
    (newTaxValidator.Validate { montoServicios := 5, descuento := 10 }
        0).computed.montoFacturado = -5 ∧ (-5 : ℚ) < 0 := by
  constructor
  · show round2 (montoFacturadoOf { montoServicios := 5, descuento := 10 }) = -5
    have h1 : montoFacturadoOf { montoServicios := 5, descuento := 10 } = -5 := by
      norm_num [montoFacturadoOf]
    rw [h1, show (-5 : ℚ) = ((-5 : ℤ) : ℚ) by norm_num, round2_intCast]
  · norm_num

/-- C2 (amended): when `montoServicios`, `montoBienes`, `descuento` and
`itbisExento` are all 0, no `itbis_mismatch` error is ever raised; a
`total_mismatch` error is absent only when additionally `totalFactura <= 0`
(the total check still runs against the remaining charge fields when
`totalFactura > 0`: see the counterexample). -/
theorem zero_base_no_itbis_mismatch (v : TaxValidator) (i : InvoiceInput)
    (now : ℚ) (h1 : i.montoServicios = 0) (h2 : i.montoBienes = 0)
    (h3 : i.descuento = 0) (h4 : i.itbisExento = 0) :
    "itbis_mismatch" ∉ errorCodes (v.Validate i now) ∧
      (i.totalFactura ≤ 0 → "total_mismatch" ∉ errorCodes (v.Validate i now)) := by
  constructor
  · intro hmem
    have hb : baseGravadaOf i = 0 := by
      unfold baseGravadaOf baseGravadaRawOf
      rw [h1, h2, h3, h4]
      norm_num
    have := (itbis_mismatch_mem_iff.mp hmem).1
    rw [hb] at this
    exact lt_irrefl 0 this
  · intro htf hmem
    have := (total_mismatch_mem_iff.mp hmem).1
    linarith

/-- C2 counterexample: with the four base fields 0 but `totalFactura = 100`,
`Validate` does raise `total_mismatch` (against an expected total of 0). -/
theorem zero_base_total_mismatch_example :
    "total_mismatch" ∈ errorCodes (newTaxValidator.Validate
      { totalFactura := 100 } 0) := by
  rw [total_mismatch_mem_iff]
  norm_num [newTaxValidator, totalEsperadoOf, montoFacturadoOf]

/-- Witness for C2's amended theorem at a concrete input. -/
theorem zero_base_no_itbis_mismatch_example :
    "itbis_mismatch" ∉ errorCodes (newTaxValidator.Validate
        { itbisFacturado := 50 } 0) ∧
      (({ itbisFacturado := 50 } : InvoiceInput).totalFactura ≤ 0 →
        "total_mismatch" ∉ errorCodes (newTaxValidator.Validate
          { itbisFacturado := 50 } 0)) :=
  zero_base_no_itbis_mismatch newTaxValidator { itbisFacturado := 50 } 0
    rfl rfl rfl rfl

/-- C4 (amended): the `itbis_exento_exceeds_base` warning is raised when
`itbisExento > 0` and the taxed base
`(montoServicios + montoBienes - descuento) - itbisExento` is negative,
provided additionally `itbisFacturado > 0` (the source gates the check on a
positive invoiced ITBIS: see the counterexample). -/
theorem exento_warning_requires_positive_itbis (v : TaxValidator)
    (i : InvoiceInput) (now : ℚ) (h1 : 0 < i.itbisFacturado)
    (h2 : 0 < i.itbisExento)
    (h3 : i.montoServicios + i.montoBienes - i.descuento - i.itbisExento < 0) :
    "itbis_exento_exceeds_base" ∈ warningCodes (v.Validate i now) := by
  rw [mem_warningCodes, validate_warnings]
  simp only [List.mem_append]
  refine ⟨{ field := "itbis_exento", code := "itbis_exento_exceeds_base",
            message := "ITBIS exento excede la base imponible" },
          Or.inr ?_, rfl⟩
  rw [validateCoherence_snd]
  refine List.mem_append.mpr (Or.inl ?_)
  rw [if_pos ⟨h1, h2⟩, if_pos h3]
  exact List.mem_singleton.mpr rfl

/-- C4 counterexample: with `itbisExento = 10` and everything else 0 (in
particular `itbisFacturado = 0`), the taxed base is negative yet no
`itbis_exento_exceeds_base` warning is raised. -/
theorem exento_warning_absent_example :
    "itbis_exento_exceeds_base" ∉ warningCodes (newTaxValidator.Validate
      { itbisExento := 10 } 0) := by
  intro hmem
  rw [mem_warningCodes, validate_warnings] at hmem
  simp only [List.mem_append] at hmem
  obtain ⟨w, ((((h | h) | h) | h) | h), hc⟩ := hmem
  · rw [validatePropina_code h] at hc
    exact absurd hc (by decide)
  · rcases validateTelecom_codes h with hcc | hcc <;> rw [hcc] at hc <;>
      exact absurd hc (by decide)
  · rw [validateNCF_snd_codes h] at hc
    exact absurd hc (by decide)
  · rw [validateRetenciones_snd_codes h] at hc
    exact absurd hc (by decide)
  · rw [validateCoherence_snd] at h
    rcases List.mem_append.mp h with h1 | h1
    · rw [if_neg (by norm_num)] at h1
      exact absurd h1 (List.not_mem_nil w)
    · rw [if_neg (by norm_num)] at h1
      exact absurd h1 (List.not_mem_nil w)

/-- Witness for C4's amended theorem at a concrete input. -/
theorem exento_warning_requires_positive_itbis_example :
    "itbis_exento_exceeds_base" ∈ warningCodes (newTaxValidator.Validate
      { itbisFacturado := 5, itbisExento := 10 } 0) :=
  exento_warning_requires_positive_itbis newTaxValidator
    { itbisFacturado := 5, itbisExento := 10 } 0 (by norm_num) (by norm_num)
    (by norm_num)

lemma mem_validateNCF_fst {i : InvoiceInput} {now : ℚ} {e : ValidationError} :
    e ∈ (validateNCF i now).1 ↔
      (i.ncf ≠ "" ∧ ncfFormatOK i.ncf = false ∧
        e = { field := "ncf", code := "ncf_invalid_format",
              message := "NCF debe comenzar con B o E seguido de 10-12 dígitos" }) ∨
      (i.ncf ≠ "" ∧ ncfFormatOK i.ncf = true ∧ i.ncfVencimiento ≠ "" ∧
        ∃ t, parseDate i.ncfVencimiento = some t ∧ t < now ∧
          e = { field := "ncf_vencimiento", code := "ncf_expired",
                message := "NCF vencido" }) := by
  rw [validateNCF_fst]
  split_ifs with h1 h2 h3
  · simp [h1]
  · simp_all
  · simp_all
  · rcases hp : parseDate i.ncfVencimiento with _ | t <;> dsimp only
    · simp_all
    · split_ifs with h4 <;> simp_all

lemma mem_validateNCF_snd {i : InvoiceInput} {now : ℚ} {w : ValidationWarning} :
    w ∈ (validateNCF i now).2 ↔
      (i.ncf ≠ "" ∧ ncfFormatOK i.ncf = true ∧
        validTypes.contains (i.ncf.take 3) = false ∧
        w = { field := "ncf", code := "ncf_unknown_type",
              message := "Tipo de NCF no reconocido: " ++ i.ncf.take 3 }) := by
  rw [validateNCF_snd]
  split_ifs <;> simp_all

lemma ncf_invalid_format_mem_iff {v : TaxValidator} {i : InvoiceInput} {now : ℚ} :
    "ncf_invalid_format" ∈ errorCodes (v.Validate i now) ↔
      (i.ncf ≠ "" ∧ ncfFormatOK i.ncf = false) := by
  rw [mem_errorCodes, validate_errors]
  simp only [List.mem_append]
  constructor
  · rintro ⟨e, ((((h | h) | h) | h) | h), hc⟩
    · rw [validateITBIS_code h] at hc
      exact absurd hc (by decide)
    · rw [validateTotal_code h] at hc
      exact absurd hc (by decide)
    · rcases mem_validateNCF_fst.mp h with ⟨hne, hf, -⟩ | ⟨-, -, -, t, -, -, he⟩
      · exact ⟨hne, hf⟩
      · rw [he] at hc
        exact absurd hc (by decide)
    · rcases validateRetenciones_fst_codes h with hcc | hcc <;> rw [hcc] at hc <;>
        exact absurd hc (by decide)
    · rw [validateCoherence_fst_codes h] at hc
      exact absurd hc (by decide)
  · rintro ⟨hne, hf⟩
    exact ⟨_, Or.inl (Or.inl (Or.inr
      (mem_validateNCF_fst.mpr (Or.inl ⟨hne, hf, rfl⟩)))), rfl⟩

lemma ncf_expired_mem_iff {v : TaxValidator} {i : InvoiceInput} {now : ℚ} :
    "ncf_expired" ∈ errorCodes (v.Validate i now) ↔
      (i.ncf ≠ "" ∧ ncfFormatOK i.ncf = true ∧ i.ncfVencimiento ≠ "" ∧
        ∃ t, parseDate i.ncfVencimiento = some t ∧ t < now) := by
  rw [mem_errorCodes, validate_errors]
  simp only [List.mem_append]
  constructor
  · rintro ⟨e, ((((h | h) | h) | h) | h), hc⟩
    · rw [validateITBIS_code h] at hc
      exact absurd hc (by decide)
    · rw [validateTotal_code h] at hc
      exact absurd hc (by decide)
    · rcases mem_validateNCF_fst.mp h with ⟨-, -, he⟩ | ⟨hne, hf, hv, t, hp, ht, -⟩
      · rw [he] at hc
        exact absurd hc (by decide)
      · exact ⟨hne, hf, hv, t, hp, ht⟩
    · rcases validateRetenciones_fst_codes h with hcc | hcc <;> rw [hcc] at hc <;>
        exact absurd hc (by decide)
    · rw [validateCoherence_fst_codes h] at hc
      exact absurd hc (by decide)
  · rintro ⟨hne, hf, hv, t, hp, ht⟩
    exact ⟨_, Or.inl (Or.inl (Or.inr
      (mem_validateNCF_fst.mpr (Or.inr ⟨hne, hf, hv, t, hp, ht, rfl⟩)))), rfl⟩

lemma ncf_unknown_type_mem_iff {v : TaxValidator} {i : InvoiceInput} {now : ℚ} :
    "ncf_unknown_type" ∈ warningCodes (v.Validate i now) ↔
      (i.ncf ≠ "" ∧ ncfFormatOK i.ncf = true ∧
        validTypes.contains (i.ncf.take 3) = false) := by
  rw [mem_warningCodes, validate_warnings]
  simp only [List.mem_append]
  constructor
  · rintro ⟨w, ((((h | h) | h) | h) | h), hc⟩
    · rw [validatePropina_code h] at hc
      exact absurd hc (by decide)
    · rcases validateTelecom_codes h with hcc | hcc <;> rw [hcc] at hc <;>
        exact absurd hc (by decide)
    · exact ⟨(mem_validateNCF_snd.mp h).1, (mem_validateNCF_snd.mp h).2.1,
        (mem_validateNCF_snd.mp h).2.2.1⟩
    · rw [validateRetenciones_snd_codes h] at hc
      exact absurd hc (by decide)
    · rcases validateCoherence_snd_codes h with hcc | hcc <;> rw [hcc] at hc <;>
        exact absurd hc (by decide)
  · rintro ⟨hne, hf, hu⟩
    exact ⟨_, Or.inl (Or.inl (Or.inr
      (mem_validateNCF_snd.mpr ⟨hne, hf, hu, rfl⟩))), rfl⟩

/-- C8: a non-empty NCF that fails the format regex yields the
`ncf_invalid_format` error and short-circuits the remaining NCF sub-checks
(no `ncf_unknown_type` warning, no `ncf_expired` error); an empty NCF yields
no NCF errors or warnings at all. -/
theorem ncf_format_short_circuit (v : TaxValidator) (i : InvoiceInput) (now : ℚ) :
    (i.ncf ≠ "" → ncfFormatOK i.ncf = false →
      ("ncf_invalid_format" ∈ errorCodes (v.Validate i now) ∧
       "ncf_expired" ∉ errorCodes (v.Validate i now) ∧
       "ncf_unknown_type" ∉ warningCodes (v.Validate i now))) ∧
    (i.ncf = "" →
      ("ncf_invalid_format" ∉ errorCodes (v.Validate i now) ∧
       "ncf_expired" ∉ errorCodes (v.Validate i now) ∧
       "ncf_unknown_type" ∉ warningCodes (v.Validate i now))) := by
  constructor
  · intro hne hf
    refine ⟨ncf_invalid_format_mem_iff.mpr ⟨hne, hf⟩, ?_, ?_⟩
    · intro hm
      rw [(ncf_expired_mem_iff.mp hm).2.1] at hf
      cases hf
    · intro hm
      rw [(ncf_unknown_type_mem_iff.mp hm).2.1] at hf
      cases hf
  · intro hnil
    refine ⟨?_, ?_, ?_⟩
    · intro hm
      exact (ncf_invalid_format_mem_iff.mp hm).1 hnil
    · intro hm
      exact (ncf_expired_mem_iff.mp hm).1 hnil
    · intro hm
      exact (ncf_unknown_type_mem_iff.mp hm).1 hnil

/-- Witness for C8 at a concrete badly-formatted NCF. -/
theorem ncf_format_short_circuit_example :
    "ncf_invalid_format" ∈ errorCodes (newTaxValidator.Validate
        { ncf := "X0100000001" } 0) ∧
      "ncf_expired" ∉ errorCodes (newTaxValidator.Validate
        { ncf := "X0100000001" } 0) ∧
      "ncf_unknown_type" ∉ warningCodes (newTaxValidator.Validate
        { ncf := "X0100000001" } 0) :=
  (ncf_format_short_circuit newTaxValidator { ncf := "X0100000001" } 0).1
    (by decide) (by decide)

lemma validateNCF_time_const {i : InvoiceInput} (h : i.ncfVencimiento = "")
    (t1 t2 : ℚ) : validateNCF i t1 = validateNCF i t2 := by
  unfold validateNCF
  split_ifs <;> simp [h]

/-- C5 (amended): `Validate` is deterministic as a function of the input and
the current time; in particular, when `ncfVencimiento` is empty the result is
the same at any two wall-clock times.  (When `ncfVencimiento` is a non-empty
parseable date, results at different times can differ because the expiry
check reads the clock: see the counterexample.) -/
theorem validate_time_independent_without_vencimiento (v : TaxValidator)
    (i : InvoiceInput) (h : i.ncfVencimiento = "") (t1 t2 : ℚ) :
    v.Validate i t1 = v.Validate i t2 := by
  unfold TaxValidator.Validate
  rw [validateNCF_time_const h t1 t2]

/-- Witness for C5's amended theorem at a concrete input and two times. -/
theorem validate_time_independent_example :
    newTaxValidator.Validate { ncf := "B0100000001" } 0 =
      newTaxValidator.Validate { ncf := "B0100000001" } 12345 :=
  validate_time_independent_without_vencimiento newTaxValidator
    { ncf := "B0100000001" } rfl 0 12345

/-- C5 counterexample: with a well-formed NCF and expiry date `2020-06-15`,
calling `Validate` on the identical input before and after that date yields
different results (the second carries `ncf_expired`), so `Validate` is not
deterministic across wall-clock times. -/
theorem validate_differs_across_time_example :
    "ncf_expired" ∉ errorCodes (newTaxValidator.Validate
        { ncf := "B0100000001", ncfVencimiento := "2020-06-15" } 20200101) ∧
    "ncf_expired" ∈ errorCodes (newTaxValidator.Validate
        { ncf := "B0100000001", ncfVencimiento := "2020-06-15" } 20200616) ∧
    newTaxValidator.Validate
        { ncf := "B0100000001", ncfVencimiento := "2020-06-15" } 20200101 ≠
      newTaxValidator.Validate
        { ncf := "B0100000001", ncfVencimiento := "2020-06-15" } 20200616 := by
  have hp : parseDate "2020-06-15" = some ((20200615 : ℕ) : ℚ) := by
    simp [parseDate, show dateCode "2020-06-15" = some 20200615 from by decide]
  have habs :
      "ncf_expired" ∉ errorCodes (newTaxValidator.Validate
        { ncf := "B0100000001", ncfVencimiento := "2020-06-15" } 20200101) := by
    intro hm
    obtain ⟨-, -, -, t, hpt, ht⟩ := ncf_expired_mem_iff.mp hm
    rw [hp] at hpt
    obtain rfl := (Option.some_inj.mp hpt).symm
    norm_num at ht
  have hmem :
      "ncf_expired" ∈ errorCodes (newTaxValidator.Validate
        { ncf := "B0100000001", ncfVencimiento := "2020-06-15" } 20200616) := by
    refine ncf_expired_mem_iff.mpr ⟨by decide, by decide, by decide,
      ((20200615 : ℕ) : ℚ), hp, by norm_num⟩
  refine ⟨habs, hmem, fun heq => habs ?_⟩
  rw [heq]
  exact hmem

/-- C7: with the default 5% tolerance and a positive taxed base, the
`itbis_mismatch` error is raised iff `|itbisFacturado - itbisEsperado|`
strictly exceeds `baseGravada * 0.05` (so the exact boundary raises
nothing), and every such error is on field `itbis_facturado` carrying the
rounded expected and actual values. -/
theorem itbis_tolerance_boundary (i : InvoiceInput) (now : ℚ)
    (h : 0 < baseGravadaOf i) :
    ("itbis_mismatch" ∈ errorCodes (newTaxValidator.Validate i now) ↔
      baseGravadaOf i * (5/100) < |i.itbisFacturado - itbisEsperadoOf i|) ∧
    (∀ e ∈ (newTaxValidator.Validate i now).errors, e.code = "itbis_mismatch" →
      e.field = "itbis_facturado" ∧ e.expected = round2 (itbisEsperadoOf i) ∧
        e.actual = round2 i.itbisFacturado) := by
  constructor
  · constructor
    · intro hm
      exact (itbis_mismatch_mem_iff.mp hm).2
    · intro hd
      exact itbis_mismatch_mem_iff.mpr ⟨h, hd⟩
  · intro e he hc
    rw [validate_errors] at he
    simp only [List.mem_append] at he
    rcases he with (((h1 | h1) | h1) | h1) | h1
    · rw [(mem_validateITBIS.mp h1).2.2]
      exact ⟨rfl, rfl, rfl⟩
    · rw [validateTotal_code h1] at hc
      exact absurd hc (by decide)
    · rcases validateNCF_fst_codes h1 with hcc | hcc <;> rw [hcc] at hc <;>
        exact absurd hc (by decide)
    · rcases validateRetenciones_fst_codes h1 with hcc | hcc <;> rw [hcc] at hc <;>
        exact absurd hc (by decide)
    · rw [validateCoherence_fst_codes h1] at hc
      exact absurd hc (by decide)

/-- Witness for C7 at the exact tolerance boundary: base 100, expected ITBIS
18, invoiced ITBIS 23, deviation exactly 5 = 100 * 0.05 — no error. -/
theorem itbis_tolerance_boundary_example :
    "itbis_mismatch" ∉ errorCodes (newTaxValidator.Validate
      { montoServicios := 100, itbisFacturado := 23 } 0) := by
  intro hm
  have hiff := (itbis_tolerance_boundary
    { montoServicios := 100, itbisFacturado := 23 } 0
    (by norm_num [baseGravadaOf, baseGravadaRawOf])).1
  have hd := hiff.mp hm
  norm_num [baseGravadaOf, baseGravadaRawOf, itbisEsperadoOf, itbisTasaOf] at hd

/-- C3 (amended): `calculateConfidence` awards the 0.10 NCF-format bonus
exactly when the NCF matches the scorer's own regex
`^(B0[124]|B1[456]|E3[1-9]|E4[0-5])\d{8,13}$` — not the validator's §4.1.5
regex `^[BE][0-9]{10,12}$` (see the counterexample). -/
theorem ncf_bonus_follows_scorer_regex (inv : Invoice) :
    calculateConfidence inv =
      min 1 (scoreBase inv + totalBonus inv +
        (if ncfRegexAccept inv.ncf then 10/100 else 0)) := by
  have hre : scoreBase inv + ncfBonus inv + totalBonus inv =
      scoreBase inv + totalBonus inv +
        (if ncfRegexAccept inv.ncf then 10/100 else 0) := by
    unfold ncfBonus
    ring
  unfold calculateConfidence confidenceSum
  rw [hre, min_def]
  split_ifs with h1 h2 <;> first | rfl | linarith

/-- C3 counterexample: `B9900000001` matches the §4.1.5 regex
`^[BE][0-9]{10,12}$` yet receives no NCF-format bonus from
`calculateConfidence` (its score stays at 0.30 = NCF present + ITBIS
non-negative, not 0.40). -/
theorem ncf_bonus_not_spec_regex_example :
    ncfFormatOK "B9900000001" = true ∧
    ncfRegexAccept "B9900000001" = false ∧
    ncfBonus { ncf := "B9900000001" } = 0 ∧
    calculateConfidence { ncf := "B9900000001" } = 3/10 := by
  refine ⟨by decide, by decide, ?_, ?_⟩
  · simp [ncfBonus, show ncfRegexAccept "B9900000001" = false from by decide]
  · have hb : scoreBase { ncf := "B9900000001" } = 3/10 := by
      unfold scoreBase
      norm_num [show ("B9900000001" : String) ≠ "" from by decide]
    have hn : ncfBonus { ncf := "B9900000001" } = 0 := by
      simp [ncfBonus, show ncfRegexAccept "B9900000001" = false from by decide]
    have ht : totalBonus { ncf := "B9900000001" } = 0 := by
      unfold totalBonus
      norm_num
    unfold calculateConfidence confidenceSum
    rw [hb, hn, ht]
    norm_num

end FacturaIA
